import Mathlib

/-!
Shallow embedding of the core logic of the ansible-elastic-beanstalk modules
(`library/elasticbeanstalk_version.py`, `library/elasticbeanstalk_env.py`,
`library/elasticbeanstalk_app.py`, `library/elasticbeanstalk_option_settings.py`),
together with theorems settling the frozen claims about the repository's
natural-language specification.

Modelling conventions:
- Python dict records become Lean structures; a key that may be absent becomes
  an `Option` field (for `Value` of an observed option, `Status` of an
  environment, and the `VersionLabel` / `TemplateName` keys of an environment
  record, where the outer `Option` is key presence and the inner one the
  Python `None` value).
- Timestamps are integers (`Int`); only their ordering is used by the code.
- The remote client is replaced by explicit data arguments: the list a remote
  call would return is passed in directly.
- Stateful code (the in-place mutation of `env` in `update_required`, the
  remove-while-iterating loop of `describe_env`, and the polling loop of
  `wait_for`) is modelled by explicit state passing.
-/

/-! ### Python `str.split(',')`

`"".split(",")` is `[""]` in Python: the result is never empty. -/

/-- Accumulator version of comma splitting over the character list. -/
def splitCommaAux : List Char → List Char → List String
  | [], acc => [String.mk acc.reverse]
  | c :: cs, acc =>
    if c = ',' then String.mk acc.reverse :: splitCommaAux cs []
    else splitCommaAux cs (c :: acc)

/-- Model of Python `s.split(',')`. -/
def splitComma (s : String) : List String :=
  splitCommaAux s.data []

/-! ### Option settings (`elasticbeanstalk_option_settings.py` and
`elasticbeanstalk_env.py`, `new_or_changed_option`) -/

/-- A desired option setting `{Namespace, OptionName, Value}` as supplied by the
caller; desired settings in this program always carry a `Value` (the final
`return` of both `new_or_changed_option` variants reads `setting['Value']`
unconditionally). -/
structure OptionSetting where
  Namespace : String
  OptionName : String
  Value : String
deriving DecidableEq

/-- An observed option setting of the live environment; the env-module variant
of `new_or_changed_option` guards every access to `option['Value']` with
`'Value' in option`, so the key may be absent (`none`). -/
structure ObservedOption where
  Namespace : String
  OptionName : String
  Value : Option String
deriving DecidableEq

/-- A `(Key, OldValue, NewValue)` tuple as appended to `updates`; old and new
values may be Python `None`. -/
abbrev Change := String × Option String × Option String

/-- Namespaces given subset-equivalence treatment (source literal list). -/
def specialNamespaces : List String :=
  ["aws:autoscaling:launchconfiguration", "aws:ec2:vpc"]

/-- Option names given subset-equivalence treatment (source literal list). -/
def specialOptionNames : List String :=
  ["SecurityGroups", "ELBSubnets", "Subnets"]

/-- `new_or_changed_option` of `elasticbeanstalk_env.py` (lines 289-306):
scan `options` for a `(Namespace, OptionName)` match; on a match compute the
subset-equivalence check (`set_setting.issubset(set_option)`, with the empty
set for a missing `Value`) and the exact comparison; return `none` when either
applies, a change tuple when the observed option has a `Value`, and otherwise
fall through to the next iteration of the loop. -/
def new_or_changed_option : List ObservedOption → OptionSetting → Option Change
  | [], setting =>
    some (setting.Namespace ++ ":" ++ setting.OptionName, some "<NEW>", some setting.Value)
  | option :: rest, setting =>
    if option.Namespace = setting.Namespace ∧ option.OptionName = setting.OptionName then
      let check_ns := specialNamespaces.contains setting.Namespace
      let check_on := specialOptionNames.contains setting.OptionName
      let set_setting := splitComma setting.Value
      let set_opt : List String :=
        match option.Value with
        | none => []
        | some v => splitComma v
      let check_setting_values := set_setting.all (fun t => set_opt.contains t)
      let compare_option_setting :=
        match option.Value with
        | none => false
        | some v => v == setting.Value
      if (check_ns && check_on && check_setting_values) || compare_option_setting then
        none
      else
        match option.Value with
        | some v =>
          some (option.Namespace ++ ":" ++ option.OptionName, some v, some setting.Value)
        | none => new_or_changed_option rest setting
    else
      new_or_changed_option rest setting

/-- `new_or_changed_option` of `elasticbeanstalk_option_settings.py`
(lines 2-15). Note line 9 of the source:
`set(setting['Value'].split(',')).issubset(setting['Value'].split(','))` —
the desired value's token set is compared with itself; the model reproduces
that literally. In this variant every observed option carries a `Value`. -/
def new_or_changed_option_os : List OptionSetting → OptionSetting → Option Change
  | [], setting =>
    some (setting.Namespace ++ ":" ++ setting.OptionName, some "<NEW>", some setting.Value)
  | option :: rest, setting =>
    if option.Namespace = setting.Namespace ∧ option.OptionName = setting.OptionName then
      if (specialNamespaces.contains setting.Namespace &&
          specialOptionNames.contains setting.OptionName &&
          (splitComma setting.Value).all
            (fun t => (splitComma setting.Value).contains t)) ||
         (option.Value == setting.Value) then
        none
      else
        some (option.Namespace ++ ":" ++ option.OptionName, some option.Value, some setting.Value)
    else
      new_or_changed_option_os rest setting

/-! ### The state differ (`elasticbeanstalk_env.py`, `update_required`) -/

/-- The environment record as far as `update_required` touches it.  The outer
`Option` of each field is key presence (`'VersionLabel' not in env`); the
inner `Option String` is the stored value, `none` standing for Python `None`. -/
structure EnvRec where
  VersionLabel : Option (Option String)
  TemplateName : Option (Option String)
deriving DecidableEq

/-- The module parameters that `update_required` reads.  `main` always builds
`module.params` with all three keys present, so key presence is not modelled;
`none` is Python `None`. -/
structure Params where
  version_label : Option String
  template_name : Option String
  option_settings : List OptionSetting
deriving DecidableEq

/-- The `for setting in params["option_settings"]` loop of `update_required`:
append the result of `new_or_changed_option` whenever it is not `None`. -/
def option_changes (options : List ObservedOption) : List OptionSetting → List Change
  | [] => []
  | s :: rest =>
    match new_or_changed_option options s with
    | some change => change :: option_changes options rest
    | none => option_changes options rest

/-- `update_required` (lines 267-286).  The Python function mutates its `env`
dict in place (`env['VersionLabel'] = None` when the key is absent); the model
threads that state explicitly and returns the possibly-mutated record as the
second component.  The `options` argument stands for
`env_settings["ConfigurationSettings"][0]["OptionSettings"]`, a pure
projection of `env_settings` containing no logic. -/
def update_required (env : EnvRec) (options : List ObservedOption) (params : Params) :
    List Change × EnvRec :=
  let env1 : EnvRec :=
    if env.VersionLabel = none then ⟨some none, env.TemplateName⟩ else env
  let updates_version : List Change :=
    if env1.VersionLabel.getD none ≠ params.version_label then
      [("VersionLabel", env1.VersionLabel.getD none, params.version_label)]
    else []
  let updates_template : List Change :=
    match env1.TemplateName with
    | none => [("TemplateName", none, params.template_name)]
    | some tv =>
      if tv ≠ params.template_name then
        [("TemplateName", tv, params.template_name)]
      else []
  (updates_version ++ updates_template ++ option_changes options params.option_settings, env1)

/-! ### Version records and the retention selector
(`elasticbeanstalk_version.py`) -/

/-- A version record as far as the retention logic reads it. -/
structure VersionRec where
  VersionLabel : String
  DateCreated : Int
  DateUpdated : Int
deriving DecidableEq

/-- Descending order on `DateCreated` — the key actually used by
`list_versions_sorted` (`operator.itemgetter("DateCreated")`, `reverse=True`). -/
def byDateCreatedDesc (a b : VersionRec) : Prop :=
  b.DateCreated ≤ a.DateCreated

instance : DecidableRel byDateCreatedDesc :=
  fun a b => Int.decLe b.DateCreated a.DateCreated

instance : IsTotal VersionRec byDateCreatedDesc :=
  ⟨fun a b => le_total b.DateCreated a.DateCreated⟩

instance : IsTrans VersionRec byDateCreatedDesc :=
  ⟨fun _ _ _ h1 h2 => le_trans h2 h1⟩

/-- `list_versions_sorted` (lines 112-115): sort by `DateCreated` descending
(Python `sorted` is a stable sort, as is insertion sort), return `None` for an
empty list. -/
def list_versions_sorted (versions : List VersionRec) : Option (List VersionRec) :=
  let sorted := versions.insertionSort byDateCreatedDesc
  if 0 < sorted.length then some sorted else none

/-- `describe_version` (lines 101-104): `None if len(versions) != 1 else
versions[0]`; the remote result list is passed in directly. -/
def describe_version (versions : List VersionRec) : Option VersionRec :=
  if versions.length ≠ 1 then none else versions.head?

/-- The `for index, version in enumerate(versions)` loop of
`get_cleanup_versions_by_files`: keep `version` when
`index > files_to_store - 1` and its label is not deployed.  `index` is carried
as an `Int` so that `files_to_store - 1` is Python integer arithmetic. -/
def cleanup_files_go (deployed : List String) (files_to_store : Int) :
    List VersionRec → Int → List VersionRec
  | [], _ => []
  | v :: vs, index =>
    if files_to_store - 1 < index ∧ ¬ deployed.contains v.VersionLabel then
      v :: cleanup_files_go deployed files_to_store vs (index + 1)
    else
      cleanup_files_go deployed files_to_store vs (index + 1)

/-- `get_cleanup_versions_by_files` (lines 140-145). -/
def get_cleanup_versions_by_files (versions : List VersionRec) (deployed : List String)
    (files_to_store : Int) : Option (List VersionRec) :=
  let delete_list_count := cleanup_files_go deployed files_to_store versions 0
  if delete_list_count.length = 0 then none else some delete_list_count

/-- `get_cleanup_versions_by_date` (lines 132-138); `now` stands for
`time.time()` at the call. -/
def get_cleanup_versions_by_date (versions : List VersionRec) (deployed : List String)
    (days_to_store : Int) (now : Int) : Option (List VersionRec) :=
  let targetTime := now - 86400 * days_to_store
  let delete_list_days := versions.filter
    (fun v => decide (v.DateUpdated < targetTime) && ¬ deployed.contains v.VersionLabel)
  if delete_list_days.length = 0 then none else some delete_list_days

/-- Python truthiness of the optional policy parameters (`if days_to_store and
files_to_store:`): absent (`None`) and `0` are falsy. -/
def truthyInt : Option Int → Bool
  | none => false
  | some n => n != 0

/-- `get_cleanup_versions` (lines 157-176); `deployed` stands for the result of
`get_deployed_versions_by_app`, which is a plain projection of the remote
environments list.  Both-policies branch, source line 164:
`return delete_list_days if len(delete_list_count) < len(delete_list_days)
else delete_list_count`.  Falling off the end of the Python function returns
`None`. -/
def get_cleanup_versions (versions : List VersionRec) (deployed : List String)
    (days_to_store files_to_store : Option Int) (now : Int) : Option (List VersionRec) :=
  if truthyInt days_to_store ∧ truthyInt files_to_store then
    let delete_list_days :=
      get_cleanup_versions_by_date versions deployed (days_to_store.getD 0) now
    let delete_list_count :=
      get_cleanup_versions_by_files versions deployed (files_to_store.getD 0)
    match delete_list_days, delete_list_count with
    | some ld, some lc => some (if lc.length < ld.length then ld else lc)
    | none, some lc => some lc
    | some ld, none => some ld
    | none, none => none
  else if truthyInt days_to_store ∧ files_to_store = none then
    get_cleanup_versions_by_date versions deployed (days_to_store.getD 0) now
  else if truthyInt files_to_store ∧ days_to_store = none then
    get_cleanup_versions_by_files versions deployed (files_to_store.getD 0)
  else
    none

/-- The `state == 'cleanup'` path of `main` (lines 311-316):
`list_versions_sorted` followed by `get_cleanup_versions`. -/
def cleanup_pipeline (versions : List VersionRec) (deployed : List String)
    (days_to_store files_to_store : Option Int) (now : Int) : Option (List VersionRec) :=
  match list_versions_sorted versions with
  | none => none
  | some sorted => get_cleanup_versions sorted deployed days_to_store files_to_store now

/-- Decidable equality for `Except`, so that concrete runs of the fallible
operations can be checked by `decide`. -/
instance {ε α : Type} [DecidableEq ε] [DecidableEq α] : DecidableEq (Except ε α) :=
  fun x y =>
    match x, y with
    | .ok a, .ok b =>
      if h : a = b then isTrue (by rw [h])
      else isFalse (fun hh => h (by cases hh; rfl))
    | .error e, .error f =>
      if h : e = f then isTrue (by rw [h])
      else isFalse (fun hh => h (by cases hh; rfl))
    | .ok _, .error _ => isFalse (fun hh => Except.noConfusion hh)
    | .error _, .ok _ => isFalse (fun hh => Except.noConfusion hh)

/-! ### Applications (`elasticbeanstalk_app.py`, `describe_app`) -/

/-- An application record; only its identity matters to the claims. -/
structure AppRec where
  ApplicationName : String
deriving DecidableEq

/-- Errors raised by `describe_app`; each exception message embeds the queried
application name (and nothing else — in particular not the matched count). -/
inductive AppError where
  | notFound (app_name : String)
  | moreThanOne (app_name : String)
deriving DecidableEq

/-- `describe_app` (lines 107-116): zero matches raise `ApplicationNotFound`,
more than one raise `MoreThanOneApplicationFound`, otherwise return the single
match.  (The two statements after the `raise` on line 112 are dead code.) -/
def describe_app (apps : List AppRec) (app_name : String) : Except AppError AppRec :=
  if apps.length = 0 then .error (.notFound app_name)
  else if 1 < apps.length then .error (.moreThanOne app_name)
  else
    match apps with
    | a :: _ => .ok a
    | [] => .error (.notFound app_name)

/-! ### Environments (`elasticbeanstalk_env.py`, `describe_env`) -/

/-- An environment record as far as `describe_env` and the waiter predicates
read it.  `Status` is `none` when the `"Status"` key is absent. -/
structure Env where
  EnvironmentName : String
  Status : Option String
deriving DecidableEq

/-- Errors raised by `describe_env`; the exception messages embed the queried
environment name (and not the matched count). -/
inductive EnvError where
  | notFound (env_name : String)
  | moreThanOne (env_name : String)
deriving DecidableEq

/-- The filter condition of `describe_env`:
`"Status" in env and env["Status"] in ignored_statuses`. -/
def statusIgnored (ignored_statuses : List String) (env : Env) : Bool :=
  match env.Status with
  | some s => ignored_statuses.contains s
  | none => false

/-- CPython semantics of `for env in envs: if ...: envs.remove(env)`:
the iterator keeps a position `index`; each step reads `envs[index]`,
increments the position, and `remove` deletes the first occurrence equal to
the read element, shifting later elements down so the element after a removal
is skipped.  The loop runs while `index < len(envs)`; `fuel` is a structural
bound on the number of iterations — `index` grows by one per step and the list
never grows, so `initial length + 1` steps always suffice. -/
def pyRemoveGo (ignored_statuses : List String) :
    Nat → List Env → Nat → List Env
  | 0, envs, _ => envs
  | fuel + 1, envs, index =>
    if h : index < envs.length then
      let env := envs[index]
      if statusIgnored ignored_statuses env then
        pyRemoveGo ignored_statuses fuel (envs.erase env) (index + 1)
      else
        pyRemoveGo ignored_statuses fuel envs (index + 1)
    else envs

/-- The remove-while-iterating loop of `describe_env` (lines 231-233). -/
def pyRemoveIgnored (ignored_statuses : List String) (envs : List Env) : List Env :=
  pyRemoveGo ignored_statuses (envs.length + 1) envs 0

/-- `describe_env` (lines 224-240): when more than one environment comes back,
run the (remove-while-iterating) filter over ignored statuses and raise
`MoreThanOneEnvironmentFound` only if more than one remains; then raise
`EnvironmentNotFound` on an empty list, else return `envs[0]`. -/
def describe_env (envs0 : List Env) (env_name : String) (ignored_statuses : List String) :
    Except EnvError Env :=
  let envs := if 1 < envs0.length then pyRemoveIgnored ignored_statuses envs0 else envs0
  if 1 < envs0.length ∧ 1 < envs.length then .error (.moreThanOne env_name)
  else if envs.length = 0 then .error (.notFound env_name)
  else
    match envs with
    | e :: _ => .ok e
    | [] => .error (.notFound env_name)

/-! ### The completion waiter (`elasticbeanstalk_env.py`, `wait_for`)

`wait_for` computes `timeout_time = time() + wait_timeout`, then loops:
fetch via `describe_env` (the `try/except` re-raises every exception), test
the predicate, raise `ValueError` if `time() > timeout_time`, and `sleep(15)`.
The model takes the clock as explicit state: the loop starts at time `0`
(so `timeout_time = wait_timeout`), each fetch (plus predicate test) consumes
`d` time units, and each sleep consumes exactly `15`.  `fetch` maps the poll
number to the remote result; `fuel` is a structural recursion bound and
`none` means the fuel ran out before the loop terminated. -/

/-- Classification of a fetch failure; the source's `except Exception` treats
both alike. -/
inductive FetchErr where
  | transient
  | other (code : String)
deriving DecidableEq

/-- Terminal outcomes of `wait_for`, each carrying the number of fetches
performed. -/
inductive WaitOutcome (E : Type) where
  | satisfied (env : E) (polls : Nat)
  | timedOut (polls : Nat)
  | failed (e : FetchErr) (polls : Nat)
deriving DecidableEq

/-- The polling loop of `wait_for` (lines 189-201). -/
def wait_for_loop {E : Type} (pred : E → Bool) (fetch : Nat → Except FetchErr E)
    (d wait_timeout : Nat) : Nat → Nat → Nat → Option (WaitOutcome E)
  | 0, _, _ => none
  | fuel + 1, t, polls =>
    match fetch polls with
    | .error e => some (.failed e (polls + 1))
    | .ok env =>
      if pred env then some (.satisfied env (polls + 1))
      else if wait_timeout < t + d then some (.timedOut (polls + 1))
      else wait_for_loop pred fetch d wait_timeout fuel (t + d + 15) (polls + 1)

/-- `wait_for` (lines 186-201), started at clock `0`. -/
def wait_for {E : Type} (pred : E → Bool) (fetch : Nat → Except FetchErr E)
    (d wait_timeout fuel : Nat) : Option (WaitOutcome E) :=
  wait_for_loop pred fetch d wait_timeout fuel 0 0


/-! ### Helper lemmas -/

/-- One unfolding step of the polling loop. -/
theorem wait_for_loop_succ {E : Type} (pred : E → Bool) (fetch : Nat → Except FetchErr E)
    (d wait_timeout fuel t polls : Nat) :
    wait_for_loop pred fetch d wait_timeout (fuel + 1) t polls =
      match fetch polls with
      | .error e => some (.failed e (polls + 1))
      | .ok env =>
        if pred env then some (.satisfied env (polls + 1))
        else if wait_timeout < t + d then some (.timedOut (polls + 1))
        else wait_for_loop pred fetch d wait_timeout fuel (t + d + 15) (polls + 1) := rfl

/-- When every fetch succeeds with a resource the predicate rejects, the loop
reaches the timeout raise as soon as the fuel covers the remaining budget:
the clock grows by at least `15` per iteration. -/
theorem wait_for_loop_terminates {E : Type} (pred : E → Bool)
    (fetch : Nat → Except FetchErr E) (d wait_timeout : Nat)
    (h : ∀ n, ∃ e, fetch n = .ok e ∧ pred e = false) :
    ∀ fuel t polls, 1 ≤ fuel → wait_timeout + 2 ≤ t + fuel →
      ∃ p, wait_for_loop pred fetch d wait_timeout fuel t polls = some (.timedOut p) := by
  intro fuel
  induction fuel with
  | zero => intro t polls h1 _; omega
  | succ f ih =>
    intro t polls _ h2
    obtain ⟨e, hf, hp⟩ := h polls
    rw [wait_for_loop_succ, hf]
    simp only [hp, Bool.false_eq_true, if_false]
    by_cases hto : wait_timeout < t + d
    · exact ⟨polls + 1, by rw [if_pos hto]⟩
    · rw [if_neg hto]
      exact ih (t + d + 15) (polls + 1) (by omega) (by omega)

/-- With an empty ignored-status list the remove-while-iterating loop removes
nothing. -/
theorem pyRemoveGo_nil_ignored :
    ∀ (fuel : Nat) (envs : List Env) (index : Nat),
      pyRemoveGo [] fuel envs index = envs := by
  intro fuel
  induction fuel with
  | zero => intro envs index; rfl
  | succ f ih =>
    intro envs index
    rw [pyRemoveGo]
    split
    · have hsi : statusIgnored [] envs[index] = false := by
        unfold statusIgnored
        cases envs[index].Status <;> simp [List.contains]
      simp only [hsi, Bool.false_eq_true, if_false]
      exact ih envs (index + 1)
    · rfl

/-- When no observed option matches the desired setting's key, the scan falls
off the end and reports the `"<NEW>"` sentinel. -/
theorem new_or_changed_option_no_match (s : OptionSetting) :
    ∀ options : List ObservedOption,
      (∀ o ∈ options, ¬(o.Namespace = s.Namespace ∧ o.OptionName = s.OptionName)) →
      new_or_changed_option options s =
        some (s.Namespace ++ ":" ++ s.OptionName, some "<NEW>", some s.Value) := by
  intro options
  induction options with
  | nil => intro _; rfl
  | cons o rest ih =>
    intro hno
    rw [new_or_changed_option]
    rw [if_neg (hno o (List.mem_cons_self o rest))]
    exact ih (fun o2 h2 => hno o2 (List.mem_cons_of_mem o h2))

/-- The settings loop of `update_required` is a `filterMap` over the desired
settings, in their iteration order. -/
theorem option_changes_eq_filterMap (options : List ObservedOption) :
    ∀ settings : List OptionSetting,
      option_changes options settings = settings.filterMap (new_or_changed_option options) := by
  intro settings
  induction settings with
  | nil => rfl
  | cons s rest ih =>
    rw [option_changes, List.filterMap_cons]
    cases new_or_changed_option options s <;> simp [ih]

/-- The indexed loop of `get_cleanup_versions_by_files` keeps exactly the
records at positions `≥ files_to_store` of the input ordering whose label is
not deployed: it equals dropping the first `files_to_store` records and then
filtering out the deployed ones. -/
theorem cleanup_files_go_eq (deployed : List String) (files_to_store : Int) :
    ∀ (vs : List VersionRec) (index : Int),
      cleanup_files_go deployed files_to_store vs index =
        (vs.drop (files_to_store - index).toNat).filter
          (fun v => !(deployed.contains v.VersionLabel)) := by
  intro vs
  induction vs with
  | nil => intro index; simp [cleanup_files_go]
  | cons v rest ih =>
    intro index
    rw [cleanup_files_go]
    by_cases hi : files_to_store - 1 < index
    · have h0 : (files_to_store - index).toNat = 0 := by omega
      have h0' : (files_to_store - (index + 1)).toNat = 0 := by omega
      rw [h0, List.drop_zero, List.filter_cons]
      by_cases hm : v.VersionLabel ∈ deployed
      · rw [if_neg (fun hh => hh.2 (by simpa using hm)), ih (index + 1), h0', List.drop_zero]
        simp [hm]
      · rw [if_pos ⟨hi, fun hh => hm (by simpa using hh)⟩, ih (index + 1), h0', List.drop_zero]
        simp [hm]
    · rw [if_neg (by intro hh; exact hi hh.1)]
      rw [ih (index + 1)]
      have hsucc : (files_to_store - index).toNat = (files_to_store - (index + 1)).toNat + 1 := by
        omega
      rw [hsucc, List.drop_succ_cons]

/-! ### Claim C1 — dual-policy retention -/

/-- Claim C1 counterexample: with both policies set, the age policy selects
three records and the count policy selects two, yet `get_cleanup_versions`
returns the three-record age list (source line 164 picks the candidate set
with larger cardinality), not the smaller count list the claim states. -/
theorem C1_counterexample :
    get_cleanup_versions
        [⟨"v0", 50, 950000⟩, ⟨"v1", 40, 920000⟩, ⟨"v2", 30, 900000⟩,
         ⟨"v3", 20, 890000⟩, ⟨"v4", 10, 880000⟩] [] (some 1) (some 3) 1000000 =
      some [⟨"v2", 30, 900000⟩, ⟨"v3", 20, 890000⟩, ⟨"v4", 10, 880000⟩] ∧
    get_cleanup_versions_by_files
        [⟨"v0", 50, 950000⟩, ⟨"v1", 40, 920000⟩, ⟨"v2", 30, 900000⟩,
         ⟨"v3", 20, 890000⟩, ⟨"v4", 10, 880000⟩] [] 3 =
      some [⟨"v3", 20, 890000⟩, ⟨"v4", 10, 880000⟩] ∧
    get_cleanup_versions_by_date
        [⟨"v0", 50, 950000⟩, ⟨"v1", 40, 920000⟩, ⟨"v2", 30, 900000⟩,
         ⟨"v3", 20, 890000⟩, ⟨"v4", 10, 880000⟩] [] 1 1000000 =
      some [⟨"v2", 30, 900000⟩, ⟨"v3", 20, 890000⟩, ⟨"v4", 10, 880000⟩] ∧
    (some [⟨"v2", 30, 900000⟩, ⟨"v3", 20, 890000⟩, ⟨"v4", 10, 880000⟩] ≠
      (some [⟨"v3", 20, 890000⟩, ⟨"v4", 10, 880000⟩] : Option (List VersionRec))) :=
  ⟨by decide, by decide, by decide, by decide⟩

/-- Claim C1 (amended): when both `daysToStore` and `filesToStore` are set and
both single-dimension candidate sets are non-empty, `get_cleanup_versions`
returns whichever candidate set has LARGER cardinality (the count set on
ties) — the more aggressive single-dimension policy, in line with the module
documentation's "more effective cleanup will take in place" — not the smaller
set. -/
theorem C1_larger_candidate_set (versions : List VersionRec) (deployed : List String)
    (days files now : Int) (ld lc : List VersionRec)
    (hd : days ≠ 0) (hf : files ≠ 0)
    (h1 : get_cleanup_versions_by_date versions deployed days now = some ld)
    (h2 : get_cleanup_versions_by_files versions deployed files = some lc) :
    ∃ r, get_cleanup_versions versions deployed (some days) (some files) now = some r ∧
      (r = ld ∨ r = lc) ∧ r.length = max ld.length lc.length := by
  unfold get_cleanup_versions
  rw [if_pos (by constructor <;> simp [truthyInt, hd, hf])]
  simp only [Option.getD_some, h1, h2]
  by_cases hlen : lc.length < ld.length
  · exact ⟨ld, by rw [if_pos hlen], Or.inl rfl, by omega⟩
  · exact ⟨lc, by rw [if_neg hlen], Or.inr rfl, by omega⟩

/-- Claim C1 witness: the amended theorem at a concrete input on which both
candidate sets are the same singleton. -/
theorem C1_witness :
    ∃ r, get_cleanup_versions [⟨"a", 0, 0⟩] [] (some 1) (some (-1)) 1000000 = some r ∧
      (r = [⟨"a", 0, 0⟩] ∨ r = [⟨"a", 0, 0⟩]) ∧
      r.length = max ([⟨"a", 0, 0⟩] : List VersionRec).length
        ([⟨"a", 0, 0⟩] : List VersionRec).length :=
  C1_larger_candidate_set [⟨"a", 0, 0⟩] [] 1 (-1) 1000000 [⟨"a", 0, 0⟩] [⟨"a", 0, 0⟩]
    (by decide) (by decide) (by decide) (by decide)

/-! ### Claim C2 — subset equivalence of the option reconciler -/

/-- Claim C2 (code bug, failing input): for the special namespace/option pair
with desired value `"sg-1,sg-3"` against observed `"sg-1"`, the
option-settings-module variant emits no Change — its subset check (source
line 9) compares the desired token set with itself, a tautology — although
the desired tokens are not a subset of the observed ones; the env-module
variant implements the claimed subset-of-observed semantics and emits the
Change. -/
theorem C2_self_subset_defect :
    new_or_changed_option_os
        [⟨"aws:autoscaling:launchconfiguration", "SecurityGroups", "sg-1"⟩]
        ⟨"aws:autoscaling:launchconfiguration", "SecurityGroups", "sg-1,sg-3"⟩ = none ∧
    new_or_changed_option
        [⟨"aws:autoscaling:launchconfiguration", "SecurityGroups", some "sg-1"⟩]
        ⟨"aws:autoscaling:launchconfiguration", "SecurityGroups", "sg-1,sg-3"⟩ =
      some ("aws:autoscaling:launchconfiguration:SecurityGroups", some "sg-1",
        some "sg-1,sg-3") ∧
    ((splitComma "sg-1,sg-3").all (fun t => (splitComma "sg-1").contains t)) = false :=
  ⟨by decide, by decide, by decide⟩

/-! ### Claim C5 — ambiguous unique-name queries -/

/-- Claim C5 counterexample: `describe_version` maps a two-match (ambiguous)
result to `none`, the very value that encodes the absent state for a
zero-match result, instead of failing fatally. -/
theorem C5_counterexample :
    describe_version [⟨"v", 1, 1⟩, ⟨"w", 2, 2⟩] = none ∧
    describe_version ([] : List VersionRec) = none :=
  ⟨by decide, by decide⟩

/-- Claim C5 (amended): `describe_app` and `describe_env` do fail fatally when
more than one record matches, with an error naming the query term (the
matched count is not part of the message); `describe_version`, however,
returns `None` for any match count other than one, silently mapping an
ambiguous version query to the absent state, which lets the create/update
path proceed. -/
theorem C5_ambiguity :
    (∀ (apps : List AppRec) (app_name : String), 1 < apps.length →
       describe_app apps app_name = .error (.moreThanOne app_name)) ∧
    (∀ (envs : List Env) (env_name : String), 1 < envs.length →
       describe_env envs env_name [] = .error (.moreThanOne env_name)) ∧
    (∀ versions : List VersionRec, versions.length ≠ 1 →
       describe_version versions = none) := by
  refine ⟨?_, ?_, ?_⟩
  · intro apps app_name h
    unfold describe_app
    rw [if_neg (by omega), if_pos h]
  · intro envs env_name h
    simp [describe_env, pyRemoveIgnored, pyRemoveGo_nil_ignored, h]
  · intro versions h
    unfold describe_version
    rw [if_pos h]

/-- Claim C5 witness: the amended theorem at concrete two-match inputs. -/
theorem C5_witness :
    describe_app [⟨"a"⟩, ⟨"b"⟩] "term" = .error (.moreThanOne "term") ∧
    describe_env [⟨"e1", none⟩, ⟨"e2", none⟩] "envterm" [] =
      .error (.moreThanOne "envterm") ∧
    describe_version [⟨"x", 1, 1⟩, ⟨"y", 2, 2⟩] = none :=
  ⟨C5_ambiguity.1 [⟨"a"⟩, ⟨"b"⟩] "term" (by decide),
   C5_ambiguity.2.1 [⟨"e1", none⟩, ⟨"e2", none⟩] "envterm" (by decide),
   C5_ambiguity.2.2 [⟨"x", 1, 1⟩, ⟨"y", 2, 2⟩] (by decide)⟩

/-! ### Claim C6 — retention by count -/

/-- Descending order on `DateUpdated` — the sort key the claim names. -/
def byDateUpdatedDesc (a b : VersionRec) : Prop :=
  b.DateUpdated ≤ a.DateUpdated

instance : DecidableRel byDateUpdatedDesc :=
  fun a b => Int.decLe b.DateUpdated a.DateUpdated

/-- The by-count selector exactly as claim C6 words it (stated for
refutation): exclude deployed records first, sort the remainder by
`DateUpdated` descending, and return the records at 0-indexed positions
`≥ filesToStore` of that filtered ordering; `none` when nothing qualifies. -/
def cleanup_by_files_claimed (versions : List VersionRec) (deployed : List String)
    (files_to_store : Int) : Option (List VersionRec) :=
  let remaining := versions.filter (fun v => !(deployed.contains v.VersionLabel))
  let sorted := remaining.insertionSort byDateUpdatedDesc
  let selected := sorted.drop files_to_store.toNat
  if selected.length = 0 then none else some selected

/-- Claim C6 counterexample: (a) the code sorts by `DateCreated`, not
`DateUpdated` — on records whose two timestamps order oppositely the cleanup
pipeline selects `w0` where the claim's description selects `w3`; (b) the
positional cutoff is applied on the unfiltered ordering — with the newest
record deployed the code selects positions 3 and 4 of the full list, where
the claim's filter-first description selects only the last record. -/
theorem C6_counterexample :
    cleanup_pipeline [⟨"w0", 10, 40⟩, ⟨"w1", 20, 30⟩, ⟨"w2", 30, 20⟩, ⟨"w3", 40, 10⟩]
        [] none (some 3) 0 = some [⟨"w0", 10, 40⟩] ∧
    cleanup_by_files_claimed [⟨"w0", 10, 40⟩, ⟨"w1", 20, 30⟩, ⟨"w2", 30, 20⟩, ⟨"w3", 40, 10⟩]
        [] 3 = some [⟨"w3", 40, 10⟩] ∧
    get_cleanup_versions_by_files [⟨"u0", 50, 50⟩, ⟨"u1", 40, 40⟩, ⟨"u2", 30, 30⟩,
        ⟨"u3", 20, 20⟩, ⟨"u4", 10, 10⟩] ["u0"] 3 =
      some [⟨"u3", 20, 20⟩, ⟨"u4", 10, 10⟩] ∧
    cleanup_by_files_claimed [⟨"u0", 50, 50⟩, ⟨"u1", 40, 40⟩, ⟨"u2", 30, 30⟩,
        ⟨"u3", 20, 20⟩, ⟨"u4", 10, 10⟩] ["u0"] 3 = some [⟨"u4", 10, 10⟩] :=
  ⟨by decide, by decide, by decide, by decide⟩

/-- Claim C6 (amended): with only `filesToStore` set the selector sorts all
records by `DateCreated` (not `DateUpdated`) descending, applies the
0-indexed positional cutoff `≥ filesToStore` to that full ordering, and only
then excludes deployed labels (equivalently: drop the first `filesToStore`
records of the sorted list, then filter out deployed ones); with 5 records,
none deployed and `filesToStore = 3` it selects exactly positions 3 and 4,
and when no record qualifies it returns `none` rather than an error. -/
theorem C6_retention_by_count :
    (∀ (versions : List VersionRec) (deployed : List String) (files_to_store : Int),
       get_cleanup_versions_by_files versions deployed files_to_store =
         (let selected := (versions.drop files_to_store.toNat).filter
             (fun v => !(deployed.contains v.VersionLabel))
          if selected.length = 0 then none else some selected)) ∧
    (∀ versions : List VersionRec,
       (list_versions_sorted versions = none ↔ versions = []) ∧
       ∀ l, list_versions_sorted versions = some l →
         l.Sorted byDateCreatedDesc ∧ l.Perm versions) ∧
    get_cleanup_versions_by_files
        [⟨"r0", 50, 50⟩, ⟨"r1", 40, 40⟩, ⟨"r2", 30, 30⟩, ⟨"r3", 20, 20⟩, ⟨"r4", 10, 10⟩]
        [] 3 = some [⟨"r3", 20, 20⟩, ⟨"r4", 10, 10⟩] := by
  refine ⟨?_, ?_, by decide⟩
  · intro versions deployed files_to_store
    unfold get_cleanup_versions_by_files
    rw [cleanup_files_go_eq]
    simp
  · intro versions
    constructor
    · constructor
      · intro hn
        unfold list_versions_sorted at hn
        by_cases h0 : 0 < (versions.insertionSort byDateCreatedDesc).length
        · rw [if_pos h0] at hn; cases hn
        · have hlen : versions.length = 0 := by
            have := (List.perm_insertionSort byDateCreatedDesc versions).length_eq
            omega
          exact List.length_eq_zero.mp hlen
      · intro hv
        subst hv
        rfl
    · intro l hl
      unfold list_versions_sorted at hl
      by_cases h0 : 0 < (versions.insertionSort byDateCreatedDesc).length
      · rw [if_pos h0] at hl
        injection hl with hh
        subst hh
        exact ⟨List.sorted_insertionSort _ _, List.perm_insertionSort _ _⟩
      · rw [if_neg h0] at hl
        cases hl

/-- Claim C6 witness: the sortedness part of the amended theorem at a concrete
two-record input. -/
theorem C6_witness :
    ([⟨"s2", 9, 9⟩, ⟨"s1", 5, 5⟩] : List VersionRec).Sorted byDateCreatedDesc ∧
    ([⟨"s2", 9, 9⟩, ⟨"s1", 5, 5⟩] : List VersionRec).Perm [⟨"s1", 5, 5⟩, ⟨"s2", 9, 9⟩] :=
  (C6_retention_by_count.2.1 [⟨"s1", 5, 5⟩, ⟨"s2", 9, 9⟩]).2
    [⟨"s2", 9, 9⟩, ⟨"s1", 5, 5⟩] (by decide)

/-! ### Claim C3 — waiter timeout -/

/-- Claim C3 counterexample: in the boundary schedule where a fetch consumes
zero time, the strict `time() > timeout_time` check does not fire at elapsed
time exactly 30 (`30 > 30` is false), so with `wait_timeout = 30` and the
fixed 15-unit sleep the loop performs a fourth fetch before raising — more
than the claimed "at most 3 polls". -/
theorem C3_counterexample :
    wait_for (fun _ : Nat => false) (fun _ => Except.ok 0) 0 30 10 =
      some (.timedOut 4) ∧ ¬(4 ≤ 3) :=
  ⟨by decide, by decide⟩

/-- Claim C3 (amended): when the predicate rejects every fetched resource the
waiter never polls forever — it raises the timeout error at the first check
whose elapsed clock exceeds `wait_timeout`, and `wait_timeout + 2` loop
iterations always suffice to reach that point; with `wait_timeout = 30` and
the fixed 15-unit sleep it performs at most 4 fetches, and at most 3 whenever
each fetch consumes at least one time unit. -/
theorem C3_waiter_timeout :
    (∀ (E : Type) (pred : E → Bool) (fetch : Nat → Except FetchErr E) (d wait_timeout : Nat),
       (∀ n, ∃ e, fetch n = .ok e ∧ pred e = false) →
       ∃ p, wait_for pred fetch d wait_timeout (wait_timeout + 2) = some (.timedOut p)) ∧
    (∀ (E : Type) (pred : E → Bool) (fetch : Nat → Except FetchErr E) (d : Nat),
       (∀ n, ∃ e, fetch n = .ok e ∧ pred e = false) → 1 ≤ d →
       ∃ p, wait_for pred fetch d 30 6 = some (.timedOut p) ∧ p ≤ 3) := by
  constructor
  · intro E pred fetch d wait_timeout h
    exact wait_for_loop_terminates pred fetch d wait_timeout h (wait_timeout + 2) 0 0
      (by omega) (by omega)
  · intro E pred fetch d h hd
    obtain ⟨e0, hf0, hp0⟩ := h 0
    obtain ⟨e1, hf1, hp1⟩ := h 1
    obtain ⟨e2, hf2, hp2⟩ := h 2
    unfold wait_for
    rw [show (6 : Nat) = 5 + 1 from rfl, wait_for_loop_succ, hf0]
    simp only [hp0, Bool.false_eq_true, if_false]
    by_cases h1 : 30 < 0 + d
    · exact ⟨1, by rw [if_pos h1], by omega⟩
    · rw [if_neg h1, show (5 : Nat) = 4 + 1 from rfl, wait_for_loop_succ, hf1]
      simp only [hp1, Bool.false_eq_true, if_false]
      by_cases h2 : 30 < 0 + d + 15 + d
      · exact ⟨2, by rw [if_pos h2], by omega⟩
      · rw [if_neg h2, show (4 : Nat) = 3 + 1 from rfl, wait_for_loop_succ, hf2]
        simp only [hp2, Bool.false_eq_true, if_false]
        have h3 : 30 < 0 + d + 15 + d + 15 + d := by omega
        exact ⟨3, by rw [if_pos h3], by omega⟩

/-- Claim C3 witness: the amended theorem at a concrete always-false predicate
with unit fetch duration. -/
theorem C3_witness :
    (∃ p, wait_for (fun _ : Nat => false) (fun _ => Except.ok 0) 1 7 9 =
      some (.timedOut p)) ∧
    (∃ p, wait_for (fun _ : Nat => false) (fun _ => Except.ok 0) 1 30 6 =
      some (.timedOut p) ∧ p ≤ 3) :=
  ⟨C3_waiter_timeout.1 Nat (fun _ => false) (fun _ => Except.ok 0) 1 7
     (fun _ => ⟨0, rfl, rfl⟩),
   C3_waiter_timeout.2 Nat (fun _ => false) (fun _ => Except.ok 0) 1
     (fun _ => ⟨0, rfl, rfl⟩) (by decide)⟩

/-! ### Claim C4 — fetch failures inside the poll loop -/

/-- Claim C4 counterexample: a transient-classified fetch failure on the very
first poll is propagated after one poll — the `try/except` around
`describe_env` re-raises every exception — even though the predicate would
accept the next fetched resource; transient errors are not ignored and
polling does not continue. -/
theorem C4_counterexample :
    wait_for (fun _ : Nat => true)
        (fun n => if n = 0 then Except.error FetchErr.transient else Except.ok 0) 0 30 10 =
      some (.failed .transient 1) ∧
    (some (.failed FetchErr.transient 1) : Option (WaitOutcome Nat)) ≠
      some (.satisfied 0 2) :=
  ⟨by decide, by decide⟩

/-- Claim C4 (amended): every fetch failure inside the poll loop — transient
or otherwise classified — makes the waiter fail at that very poll and
propagate the error; it never polls again after a fetch error. -/
theorem C4_fetch_error_propagates (E : Type) (pred : E → Bool)
    (fetch : Nat → Except FetchErr E) (d wait_timeout fuel t polls : Nat) (e : FetchErr)
    (hf : fetch polls = .error e) :
    wait_for_loop pred fetch d wait_timeout (fuel + 1) t polls =
      some (.failed e (polls + 1)) := by
  rw [wait_for_loop_succ, hf]

/-- Claim C4 witness: the amended theorem at a concrete transient failure and
at a concrete non-transient failure. -/
theorem C4_witness :
    wait_for_loop (fun _ : Nat => true) (fun _ => Except.error FetchErr.transient)
        0 30 10 0 0 = some (.failed FetchErr.transient 1) ∧
    wait_for_loop (fun _ : Nat => true) (fun _ => Except.error (FetchErr.other "AccessDenied"))
        0 30 10 0 0 = some (.failed (FetchErr.other "AccessDenied") 1) :=
  ⟨C4_fetch_error_propagates Nat (fun _ => true) (fun _ => Except.error FetchErr.transient)
     0 30 9 0 0 FetchErr.transient rfl,
   C4_fetch_error_propagates Nat (fun _ => true)
     (fun _ => Except.error (FetchErr.other "AccessDenied"))
     0 30 9 0 0 (FetchErr.other "AccessDenied") rfl⟩

/-! ### Claim C7 — purity of the differ -/

/-- Claim C7 counterexample: on an environment record without a `VersionLabel`
key, `update_required` writes `VersionLabel = None` into its `env` argument
(source lines 269-270): the state of `env` after the call differs from the
input — an observable mutation of an input. -/
theorem C7_counterexample :
    (update_required ⟨none, some (some "t")⟩ [] ⟨some "v", some "t", []⟩).2 ≠
      (⟨none, some (some "t")⟩ : EnvRec) := by
  decide

/-- Claim C7 (amended): `update_required` mutates its `env` input exactly when
the `VersionLabel` key is absent, in which case it inserts `VersionLabel =
None` and touches nothing else; with the key present `env` is returned
untouched (and `env_settings` and `params` are never written at all); the
Change list is the scalar changes followed by the option-setting changes as a
`filterMap` over the desired settings, preserving their iteration order. -/
theorem C7_differ_effects :
    (∀ (env : EnvRec) (options : List ObservedOption) (params : Params),
       env.VersionLabel ≠ none → (update_required env options params).2 = env) ∧
    (∀ (env : EnvRec) (options : List ObservedOption) (params : Params),
       env.VersionLabel = none →
         (update_required env options params).2 = ⟨some none, env.TemplateName⟩ ∧
         (update_required env options params).2 ≠ env) ∧
    (∀ (env : EnvRec) (options : List ObservedOption) (params : Params),
       (update_required env options params).1 =
         (update_required env options ⟨params.version_label, params.template_name, []⟩).1 ++
           params.option_settings.filterMap (new_or_changed_option options)) := by
  refine ⟨?_, ?_, ?_⟩
  · intro env options params h
    simp [update_required, h]
  · intro env options params h
    have h2 : (update_required env options params).2 = ⟨some none, env.TemplateName⟩ := by
      simp [update_required, h]
    refine ⟨h2, ?_⟩
    rw [h2]
    intro hh
    have hproj := congrArg EnvRec.VersionLabel hh
    rw [h] at hproj
    exact Option.noConfusion hproj
  · intro env options params
    simp [update_required, option_changes_eq_filterMap, option_changes]

/-- Claim C7 witness: the amended theorem at concrete inputs — an untouched
record, a mutated record, and a one-setting diff. -/
theorem C7_witness :
    (update_required ⟨some (some "x"), some (some "t")⟩ [] ⟨some "x", some "t", []⟩).2 =
      ⟨some (some "x"), some (some "t")⟩ ∧
    ((update_required ⟨none, none⟩ [] ⟨none, none, []⟩).2 = ⟨some none, none⟩ ∧
     (update_required ⟨none, none⟩ [] ⟨none, none, []⟩).2 ≠ ⟨none, none⟩) ∧
    (update_required ⟨some none, none⟩ [⟨"n", "o", some "v"⟩]
        ⟨none, none, [⟨"n", "o", "v2"⟩]⟩).1 =
      (update_required ⟨some none, none⟩ [⟨"n", "o", some "v"⟩] ⟨none, none, []⟩).1 ++
        [(⟨"n", "o", "v2"⟩ : OptionSetting)].filterMap
          (new_or_changed_option [⟨"n", "o", some "v"⟩]) :=
  ⟨C7_differ_effects.1 ⟨some (some "x"), some (some "t")⟩ [] ⟨some "x", some "t", []⟩
     (by decide),
   C7_differ_effects.2.1 ⟨none, none⟩ [] ⟨none, none, []⟩ (by decide),
   C7_differ_effects.2.2 ⟨some none, none⟩ [⟨"n", "o", some "v"⟩]
     ⟨none, none, [⟨"n", "o", "v2"⟩]⟩⟩

/-! ### Claim C8 — the `"<NEW>"` sentinel -/

/-- On a scan result equal to the new-setting sentinel change, no observed
option matched the key — provided every matching observed option carries a
`Value` other than the literal string `"<NEW>"`. -/
theorem new_or_changed_option_new_only_if (s : OptionSetting) :
    ∀ options : List ObservedOption,
      (∀ o ∈ options, (o.Namespace = s.Namespace ∧ o.OptionName = s.OptionName) →
        ∃ v, o.Value = some v ∧ v ≠ "<NEW>") →
      new_or_changed_option options s =
        some (s.Namespace ++ ":" ++ s.OptionName, some "<NEW>", some s.Value) →
      ∀ o ∈ options, ¬(o.Namespace = s.Namespace ∧ o.OptionName = s.OptionName) := by
  intro options
  induction options with
  | nil => intro _ _ o ho; cases ho
  | cons o rest ih =>
    intro hv hres o2 ho2
    by_cases hm : o.Namespace = s.Namespace ∧ o.OptionName = s.OptionName
    · exfalso
      obtain ⟨v, hval, hvne⟩ := hv o (List.mem_cons_self o rest) hm
      unfold new_or_changed_option at hres
      rw [if_pos hm] at hres
      simp only [hval] at hres
      split at hres
      · cases hres
      · simp only [Option.some.injEq, Prod.mk.injEq] at hres
        exact hvne hres.2.1
    · unfold new_or_changed_option at hres
      rw [if_neg hm] at hres
      rcases List.mem_cons.mp ho2 with h2 | h2
      · subst h2; exact hm
      · exact ih (fun o3 h3 hm3 => hv o3 (List.mem_cons_of_mem o h3) hm3) hres o2 h2

/-- Claim C8 (amended): when no observed setting matches the desired key, the
reconciler emits exactly `Change(key, "<NEW>", desiredValue)`; and provided
every matching observed setting carries a `Value` (other than the literal
string `"<NEW>"`), the emitted OldValue is the sentinel if and only if no
observed setting with that key exists.  The proviso is forced by the
counterexample: a matching observed entry without a `Value` key is skipped
and can also yield the sentinel (claim C10). -/
theorem C8_new_sentinel :
    (∀ (options : List ObservedOption) (s : OptionSetting),
       (∀ o ∈ options, ¬(o.Namespace = s.Namespace ∧ o.OptionName = s.OptionName)) →
       new_or_changed_option options s =
         some (s.Namespace ++ ":" ++ s.OptionName, some "<NEW>", some s.Value)) ∧
    (∀ (options : List ObservedOption) (s : OptionSetting),
       (∀ o ∈ options, (o.Namespace = s.Namespace ∧ o.OptionName = s.OptionName) →
         ∃ v, o.Value = some v ∧ v ≠ "<NEW>") →
       (new_or_changed_option options s =
          some (s.Namespace ++ ":" ++ s.OptionName, some "<NEW>", some s.Value) ↔
        ∀ o ∈ options, ¬(o.Namespace = s.Namespace ∧ o.OptionName = s.OptionName))) := by
  constructor
  · intro options s h
    exact new_or_changed_option_no_match s options h
  · intro options s hv
    constructor
    · intro hres
      exact new_or_changed_option_new_only_if s options hv hres
    · intro h
      exact new_or_changed_option_no_match s options h

/-- Claim C8 counterexample: an observed option with the matching
`(Namespace, OptionName)` but no `Value` key exists, yet the reconciler still
reports the desired setting as new with OldValue `"<NEW>"` — OldValue
`"<NEW>"` does not hold *precisely* when no prior setting with that key
existed. -/
theorem C8_counterexample :
    new_or_changed_option [⟨"ns", "Opt", none⟩] ⟨"ns", "Opt", "val"⟩ =
      some ("ns:Opt", some "<NEW>", some "val") ∧
    (⟨"ns", "Opt", none⟩ : ObservedOption).Namespace = "ns" ∧
    (⟨"ns", "Opt", none⟩ : ObservedOption).OptionName = "Opt" :=
  ⟨by decide, rfl, rfl⟩

/-- Claim C8 witness: the amended theorem at a concrete no-match input and at
a concrete input satisfying the value proviso. -/
theorem C8_witness :
    new_or_changed_option [⟨"other", "Other", some "q"⟩] ⟨"a", "b", "c"⟩ =
      some ("a" ++ ":" ++ "b", some "<NEW>", some "c") ∧
    (new_or_changed_option [⟨"a", "b", some "q"⟩] ⟨"a", "b", "c"⟩ =
       some ("a" ++ ":" ++ "b", some "<NEW>", some "c") ↔
     ∀ o ∈ [(⟨"a", "b", some "q"⟩ : ObservedOption)],
       ¬(o.Namespace = "a" ∧ o.OptionName = "b")) :=
  ⟨C8_new_sentinel.1 [⟨"other", "Other", some "q"⟩] ⟨"a", "b", "c"⟩ (by decide),
   C8_new_sentinel.2 [⟨"a", "b", some "q"⟩] ⟨"a", "b", "c"⟩ (by decide)⟩

/-! ### Claim C9 — remove-while-iterating in `describe_env` -/

/-- Claim C9: when the remote query returns exactly two environments and both
have a status in the ignored list, the remove-while-iterating loop deletes
the first and the iterator then skips the shifted second element, so
`describe_env` returns the second environment — whose status is in the
ignored list — instead of raising `EnvironmentNotFound`. -/
theorem C9_ignored_status_returned (e1 e2 : Env) (env_name : String)
    (ignored : List String)
    (h1 : statusIgnored ignored e1 = true) (h2 : statusIgnored ignored e2 = true) :
    describe_env [e1, e2] env_name ignored = .ok e2 ∧
    statusIgnored ignored e2 = true := by
  refine ⟨?_, h2⟩
  have hrm : pyRemoveIgnored ignored [e1, e2] = [e2] := by
    unfold pyRemoveIgnored
    rw [pyRemoveGo]
    rw [dif_pos (show 0 < [e1, e2].length by simp)]
    simp only [List.getElem_cons_zero, h1, if_true, List.erase_cons_head]
    rw [show [e1, e2].length = [e2].length + 1 from rfl, pyRemoveGo]
    rw [dif_neg (by simp)]
  simp [describe_env, hrm]

/-- Claim C9 witness: two concrete environments, both with ignored statuses. -/
theorem C9_witness :
    describe_env [⟨"e1", some "Terminated"⟩, ⟨"e2", some "Terminating"⟩] "n"
        ["Terminated", "Terminating"] = .ok ⟨"e2", some "Terminating"⟩ ∧
    statusIgnored ["Terminated", "Terminating"] ⟨"e2", some "Terminating"⟩ = true :=
  C9_ignored_status_returned ⟨"e1", some "Terminated"⟩ ⟨"e2", some "Terminating"⟩ "n"
    ["Terminated", "Terminating"] (by decide) (by decide)

/-! ### Claim C10 — a matched option without a `Value` is skipped -/

/-- Claim C10: an observed option matching the desired key but carrying no
`Value` entry is skipped by the env-module reconciler whenever the
equivalence check fails (the exact comparison is automatically false without
a `Value`): the scan continues with the remaining options; and when no later
observed entry matches, the setting is reported as new with OldValue
`"<NEW>"` although an observed entry with that key exists. -/
theorem C10_valueless_option_skipped (o : ObservedOption) (rest : List ObservedOption)
    (s : OptionSetting)
    (hm : o.Namespace = s.Namespace ∧ o.OptionName = s.OptionName)
    (hv : o.Value = none)
    (heq : (specialNamespaces.contains s.Namespace &&
        specialOptionNames.contains s.OptionName &&
        (splitComma s.Value).all (fun t => ([] : List String).contains t)) = false) :
    new_or_changed_option (o :: rest) s = new_or_changed_option rest s ∧
    ((∀ o2 ∈ rest, ¬(o2.Namespace = s.Namespace ∧ o2.OptionName = s.OptionName)) →
      new_or_changed_option (o :: rest) s =
        some (s.Namespace ++ ":" ++ s.OptionName, some "<NEW>", some s.Value)) := by
  have hskip : new_or_changed_option (o :: rest) s = new_or_changed_option rest s := by
    conv_lhs => rw [new_or_changed_option]
    rw [if_pos hm]
    simp only [hv, heq, Bool.false_or, Bool.false_eq_true, if_false]
  exact ⟨hskip, fun h => hskip.trans (new_or_changed_option_no_match s rest h)⟩

/-- Claim C10 witness: a concrete valueless matching option followed by no
further match yields the `"<NEW>"` sentinel. -/
theorem C10_witness :
    new_or_changed_option [⟨"ns2", "Opt2", none⟩] ⟨"ns2", "Opt2", "vv"⟩ =
      new_or_changed_option [] ⟨"ns2", "Opt2", "vv"⟩ ∧
    ((∀ o2 ∈ ([] : List ObservedOption),
        ¬(o2.Namespace = "ns2" ∧ o2.OptionName = "Opt2")) →
      new_or_changed_option [⟨"ns2", "Opt2", none⟩] ⟨"ns2", "Opt2", "vv"⟩ =
        some ("ns2" ++ ":" ++ "Opt2", some "<NEW>", some "vv")) :=
  C10_valueless_option_skipped ⟨"ns2", "Opt2", none⟩ [] ⟨"ns2", "Opt2", "vv"⟩
    ⟨rfl, rfl⟩ rfl (by decide)
